import Mathlib

/-!
Shallow embedding of the nsx_ivs collection-and-correlation engine
(`src/app/switch.py`, `node.py`, `port.py`, `vdan.py`, `lan.py`) and proofs
of the specification claims about it.

Python strings are modelled as Lean `String`/`List Char`; Python `dict`s as
association lists; Python exceptions as `Except`/explicit abort paths, caught
exactly where the source catches them.  Python objects (`aria.ops.Object`)
are modelled structurally: a name/uuid, a property list, a metric list and a
list of parent references; `obj.add_parent(p)` appends a reference to `p`.
-/

namespace NsxIvs

/-! ## Python string primitives -/

/-- Python whitespace test (ASCII fragment, which is all the inputs use). -/
def pyWS (c : Char) : Bool := c.isWhitespace

/-- `str.strip()` on a character list. -/
def pyStripChars (cs : List Char) : List Char :=
  ((cs.dropWhile pyWS).reverse.dropWhile pyWS).reverse

/-- `str.strip()`. -/
def pyStrip (s : String) : String := String.mk (pyStripChars s.toList)

/-- Split a character list at every occurrence of `sep`, keeping empty pieces
(the semantics of Python `str.split(sep)` / `re.split`). -/
def splitOnChar (sep : Char) : List Char → List (List Char)
  | [] => [[]]
  | c :: cs =>
    match splitOnChar sep cs with
    | [] => [[]]
    | r :: rs => if c = sep then [] :: r :: rs else (c :: r) :: rs

/-- Python `re.split("\n", s)` / `s.split('\n')`. -/
def pySplitNL (s : String) : List String :=
  (splitOnChar '\n' s.toList).map String.mk

/-- Python `str.splitlines()` (newline-only inputs): like splitting on `'\n'`
but yielding `[]` on the empty string and dropping a final empty piece. -/
def pySplitlines (s : String) : List String :=
  if s.toList = [] then []
  else
    let ps := splitOnChar '\n' s.toList
    (if ps.getLast? = some [] then ps.dropLast else ps).map String.mk

/-- Python `re.split("\\s+", s)` on a character list: pieces separated by
maximal whitespace runs, with an empty piece at either end when the string
starts/ends with whitespace. -/
def pySplitWSChars : List Char → List (List Char)
  | [] => [[]]
  | c :: cs =>
    let r := pySplitWSChars cs
    if pyWS c then
      match cs with
      | [] => [] :: r
      | c2 :: _ => if pyWS c2 then r else [] :: r
    else
      match r with
      | [] => [[c]]
      | t :: ts => (c :: t) :: ts

/-- Python `re.split("\\s+", s)`. -/
def pySplitWS (s : String) : List String :=
  (pySplitWSChars s.toList).map String.mk

/-- `p` a prefix of `cs`, character by character. -/
def charsPrefix : List Char → List Char → Bool
  | [], _ => true
  | _ :: _, [] => false
  | p :: ps, c :: cs => p = c && charsPrefix ps cs

/-- Python `str.startswith(pre)` (kernel-reducible form of `String.startsWith`). -/
def pyStartsWith (s pre : String) : Bool := charsPrefix pre.toList s.toList

/-- Python `str.isnumeric()` (ASCII digits suffice for the inputs here). -/
def pyIsNumeric (s : String) : Bool :=
  s.toList ≠ [] ∧ s.toList.all Char.isDigit

/-- Digits of a numeral, most significant first, to a natural number. -/
def digitsToNat (cs : List Char) : Nat :=
  cs.foldl (fun n c => 10 * n + (c.toNat - '0'.toNat)) 0

/-- Python `int(s)` on an all-digit string. -/
def pyInt (s : String) : Nat := digitsToNat s.toList

/-- `re` character class `\d`. -/
def isDigitChar (c : Char) : Bool := c.isDigit

/-- `re` character class `[\da-f:]` (the MAC-address class of the parsers). -/
def isMacChar (c : Char) : Bool :=
  c.isDigit || ('a' ≤ c ∧ c ≤ 'f') || c = ':'

/-- Greedy `(\d+)`: a non-empty digit run and the rest, or `none`. -/
def takeDigits (cs : List Char) : Option (List Char × List Char) :=
  let d := cs.takeWhile isDigitChar
  if d = [] then none else some (d, cs.dropWhile isDigitChar)

/-- Greedy `\s+`: a non-empty whitespace run is consumed, or `none`. -/
def takeWS1 (cs : List Char) : Option (List Char) :=
  if (cs.takeWhile pyWS) = [] then none else some (cs.dropWhile pyWS)

/-- Greedy `([\da-f:]+)`. -/
def takeMac (cs : List Char) : Option (List Char × List Char) :=
  let d := cs.takeWhile isMacChar
  if d = [] then none else some (d, cs.dropWhile isMacChar)

/-! ## VDAN-list parser (`vdan.py`, `parse_vdan_output`) -/

/-- The five per-LAN counters of one `lanA`/`lanB` group. -/
structure LanCtr where
  prpTxPkts : Nat
  nonPRPPkts : Nat
  txBytes : Nat
  txDrops : Nat
  supTxPkts : Nat
deriving DecidableEq, Repr

/-- One parsed VDAN record (`vdans` list element in `parse_vdan_output`). -/
structure VdanRec where
  vdanIndex : Nat
  mac : String
  vlanID : Nat
  fcPortID : Nat
  vDANAge : Nat
  lanA : LanCtr
  lanB : Option LanCtr
deriving DecidableEq, Repr

/-- `\s+(\d+)` five times in sequence: the counter tail of both patterns. -/
def takeFiveCounters (cs : List Char) : Option LanCtr := do
  let r ← takeWS1 cs
  let (d1, r) ← takeDigits r
  let r ← takeWS1 r
  let (d2, r) ← takeDigits r
  let r ← takeWS1 r
  let (d3, r) ← takeDigits r
  let r ← takeWS1 r
  let (d4, r) ← takeDigits r
  let r ← takeWS1 r
  let (d5, _) ← takeDigits r
  pure ⟨digitsToNat d1, digitsToNat d2, digitsToNat d3, digitsToNat d4, digitsToNat d5⟩

/-- The main-line regex of `parse_vdan_output`
`^(\d+)\s+([\da-f:]+)\s+(\d+)\s+(\d+)\s+(\d+)\s+(lanA)\s+(\d+)\s+(\d+)\s+(\d+)\s+(\d+)\s+(\d+)`
(prefix match; all class boundaries are whitespace-vs-nonwhitespace, so greedy
maximal-munch matching is exact). -/
def matchMainLine (cs : List Char) : Option VdanRec := do
  let (idx, r) ← takeDigits cs
  let r ← takeWS1 r
  let (mac, r) ← takeMac r
  let r ← takeWS1 r
  let (vlan, r) ← takeDigits r
  let r ← takeWS1 r
  let (fc, r) ← takeDigits r
  let r ← takeWS1 r
  let (age, r) ← takeDigits r
  let r ← takeWS1 r
  let r ← if r.take 4 = ['l', 'a', 'n', 'A'] then some (r.drop 4) else none
  let a ← takeFiveCounters r
  pure ⟨digitsToNat idx, String.mk mac, digitsToNat vlan, digitsToNat fc,
        digitsToNat age, a, none⟩

/-- The lanB-line regex `^\s*(lanB)\s+(\d+)\s+(\d+)\s+(\d+)\s+(\d+)\s+(\d+)`
(prefix match). -/
def matchLanBLine (cs : List Char) : Option LanCtr := do
  let r := cs.dropWhile pyWS
  let r ← if r.take 4 = ['l', 'a', 'n', 'B'] then some (r.drop 4) else none
  takeFiveCounters r

/-- Parser state: the records accumulated so far and `current_common`
(only its `vdanIndex` field is ever read; `none` models the initial empty
dict, whose `["vdanIndex"]` access would raise `KeyError`). -/
structure VdanPState where
  vdans : List VdanRec
  cur : Option Nat
deriving DecidableEq, Repr

/-- One loop iteration of `parse_vdan_output`.  The error case is the
`KeyError` that `current_common["vdanIndex"]` would raise; it is only
reachable when `vdans` is non-empty (the `for key in vdans` body is what
evaluates the subscript). -/
def vdanLineStep (st : VdanPState) (line : String) : Except String VdanPState :=
  let l := pyStrip line
  if l = "" ∨ pyStartsWith l "===" ∨ pyStartsWith l "Total PRP" then .ok st
  else
    match matchMainLine l.toList with
    | some rec => .ok ⟨st.vdans ++ [rec], some rec.vdanIndex⟩
    | none =>
      match matchLanBLine l.toList with
      | some b =>
        match st.vdans with
        | [] => .ok st
        | vs =>
          match st.cur with
          | none => .error "KeyError: vdanIndex"
          | some i =>
            .ok ⟨vs.map (fun r => if r.vdanIndex = i then { r with lanB := some b } else r),
                 st.cur⟩
      | none => .ok st

/-- `parse_vdan_output` (vdan.py:169-224).  The `Except` layer records the
only exception the body could raise; the theorems show it never fires. -/
def parse_vdan_output (text : String) : Except String (List VdanRec) :=
  ((pySplitlines (pyStrip text)).foldlM vdanLineStep ⟨[], none⟩).map VdanPState.vdans

/-- A line step never fails when the state satisfies the invariant
"`current_common` empty implies no record yet", and the invariant is
preserved. -/
theorem vdanLineStep_ok (st : VdanPState) (line : String)
    (h : st.cur = none → st.vdans = []) :
    ∃ st', vdanLineStep st line = .ok st' ∧ (st'.cur = none → st'.vdans = []) := by
  by_cases hs : pyStrip line = "" ∨ pyStartsWith (pyStrip line) "===" = true ∨
      pyStartsWith (pyStrip line) "Total PRP" = true
  · exact ⟨st, by simp [vdanLineStep, hs], h⟩
  · cases hm : matchMainLine (pyStrip line).data with
    | some rec =>
      exact ⟨⟨st.vdans ++ [rec], some rec.vdanIndex⟩,
        by simp [vdanLineStep, hs, hm], by simp⟩
    | none =>
      cases hb : matchLanBLine (pyStrip line).data with
      | some b =>
        cases hv : st.vdans with
        | nil => exact ⟨st, by simp [vdanLineStep, hs, hm, hb, hv], h⟩
        | cons v vs =>
          cases hc : st.cur with
          | none => simp [h hc] at hv
          | some i =>
            exact ⟨⟨st.vdans.map
                (fun r => if r.vdanIndex = i then { r with lanB := some b } else r), st.cur⟩,
              by simp [vdanLineStep, hs, hm, hb, hv, hc], by simp [hc]⟩
      | none => exact ⟨st, by simp [vdanLineStep, hs, hm, hb], h⟩

/-- Folding the line step over any list of lines from an invariant-satisfying
state never fails. -/
theorem vdan_fold_ok (lines : List String) (st : VdanPState)
    (h : st.cur = none → st.vdans = []) :
    ∃ st', lines.foldlM vdanLineStep st = .ok st' := by
  induction lines generalizing st with
  | nil => exact ⟨st, rfl⟩
  | cons l ls ih =>
    obtain ⟨st', hstep, hinv⟩ := vdanLineStep_ok st l h
    obtain ⟨st'', h2⟩ := ih st' hinv
    refine ⟨st'', ?_⟩
    rw [List.foldlM_cons, hstep]
    exact h2

/-- C4: for every input text, `parse_vdan_output` returns a list of records
without raising an exception (the only exception site, the
`current_common["vdanIndex"]` subscript of the lanB branch, is unreachable);
in particular an input whose first matching line is a lanB line yields no
record and no exception. -/
theorem C4_parse_vdan_output_total :
    (∀ text : String, ∃ vs, parse_vdan_output text = .ok vs) ∧
      parse_vdan_output "   lanB 1 2 3 4 5" = .ok [] := by
  constructor
  · intro text
    obtain ⟨st', hok⟩ :=
      vdan_fold_ok (pySplitlines (pyStrip text)) ⟨[], none⟩ (fun _ => rfl)
    exact ⟨st'.vdans, by simp [parse_vdan_output, hok, Except.map]⟩
  · rfl

/-- C7: the two-line VDAN text block of the spec scenario parses to exactly
one record with index 5, MAC `aa:bb:cc:dd:ee:ff`, VLAN 204, FC-port 0, age
9999, lanA counters (10,20,30,40,50) and lanB counters (1,2,3,4,5). -/
theorem C7_vdan_scenario :
    parse_vdan_output
        "5 aa:bb:cc:dd:ee:ff 204 0 9999 lanA 10 20 30 40 50\n     lanB 1 2 3 4 5" =
      .ok [{ vdanIndex := 5, mac := "aa:bb:cc:dd:ee:ff", vlanID := 204, fcPortID := 0,
             vDANAge := 9999,
             lanA := ⟨10, 20, 30, 40, 50⟩,
             lanB := some ⟨1, 2, 3, 4, 5⟩ }] := by
  rfl

/-! ## ENS switch-list parser (`switch.py`, `parseENSSwitchList`) -/

/-- One parsed-ENS-switch dict as consumed by `get_switches`.  A key can be
missing from the dict (「"name" in ensSwitch」 guards), hence every field is
an `Option`; `parseENSSwitchList` itself always fills all of them.  The
numeric fields are `int`s in the source. -/
structure EnsEntry where
  name : Option String
  swID : Option Nat
  maxPorts : Option Nat
  numActivePorts : Option Nat
  numPorts : Option Nat
  mtu : Option Nat
  numLcores : Option Nat
  lcoreIDs : Option String
deriving DecidableEq, Repr

/-- Tail of the ENS switch-list row regex after the lazy name group:
`\s{2,}(\d+)\s+(\d+)\s+(\d+)\s+(\d+)\s+(\d+)\s+(\d+)\s+((?:\d+\s*)+)$`.
Every boundary separates whitespace from digits, so greedy maximal-munch
matching is exact; `(?:\d+\s*)+$` holds of a suffix iff it is non-empty,
starts with a digit and consists only of digits and whitespace. -/
def ensTailMatch (cs : List Char) :
    Option (Nat × Nat × Nat × Nat × Nat × Nat × String) := do
  let w := cs.takeWhile pyWS
  if w.length < 2 then none
  else
    let r := cs.dropWhile pyWS
    let (d1, r) ← takeDigits r
    let r ← takeWS1 r
    let (d2, r) ← takeDigits r
    let r ← takeWS1 r
    let (d3, r) ← takeDigits r
    let r ← takeWS1 r
    let (d4, r) ← takeDigits r
    let r ← takeWS1 r
    let (d5, r) ← takeDigits r
    let r ← takeWS1 r
    let (d6, r) ← takeDigits r
    let r ← takeWS1 r
    match r with
    | [] => none
    | c :: _ =>
      if isDigitChar c ∧ r.all (fun x => isDigitChar x || pyWS x) then
        some (digitsToNat d1, digitsToNat d2, digitsToNat d3, digitsToNat d4,
              digitsToNat d5, digitsToNat d6, String.mk r)
      else none

/-- The full ENS row regex: the lazy `(?P<name>.*?)` group takes the least
split point whose tail matches `ensTailMatch`; `acc` holds the (reversed)
name characters consumed so far. -/
def ensRowMatch (acc cs : List Char) : Option EnsEntry :=
  match ensTailMatch cs with
  | some (a, b, c, d, e, f, g) =>
      some { name := some (pyStrip (String.mk acc.reverse)), swID := some a,
             maxPorts := some b, numActivePorts := some c, numPorts := some d,
             mtu := some e, numLcores := some f, lcoreIDs := some (pyStrip g) }
  | none =>
    match cs with
    | [] => none
    | c :: cs' => ensRowMatch (c :: acc) cs'

/-- `parseENSSwitchList` (switch.py:156-189): strip, split lines, skip the
two header/separator lines, keep the rows matching the pattern. -/
def parseENSSwitchList (ensSwitchListCmdOutput : String) : List EnsEntry :=
  ((pySplitlines (pyStrip ensSwitchListCmdOutput)).drop 2).filterMap
    (fun l => ensRowMatch [] l.toList)

/-- C8: the switch-list output whose data row is
`ens-dvs0  123  512  10  10  1500  4  0 1 2 3` parses to exactly one entry
with name "ens-dvs0", swID 123, maxPorts 512, mtu 1500, numLcores 4 and
lcoreIDs "0 1 2 3". -/
theorem C8_ens_switch_list_scenario :
    parseENSSwitchList
        "Name  SwitchID  MaxPorts  NumActivePorts  NumPorts  MTU  NumLcores  LcoreIDs\n------\nens-dvs0  123  512  10  10  1500  4  0 1 2 3" =
      [{ name := some "ens-dvs0", swID := some 123, maxPorts := some 512,
         numActivePorts := some 10, numPorts := some 10, mtu := some 1500,
         numLcores := some 4, lcoreIDs := some "0 1 2 3" }] := by
  rfl

/-! ## DvsPortset headers and `get_switches` (`switch.py`) -/

/-- One parsed DvsPortset header row (`parseDVSPortSetLine` result dict). -/
structure DvsInst where
  vSwitchName : String
  friendlyName : String
  switchUUID : String
deriving DecidableEq, Repr

/-- `parseDVSPortSetLine` (switch.py:191-203): regex
`^(\S+)\s+\(([^)]+)\)\s+(.*)$` on the stripped line.  All boundaries are
between disjoint character classes, so greedy matching is exact; group 3 is
the maximal-whitespace-skipped rest of the (already stripped) line. -/
def parseDVSPortSetLine (line : String) : Option DvsInst := do
  let cs := pyStripChars line.toList
  let g1 := cs.takeWhile (fun c => !(pyWS c))
  if g1 = [] then none
  else
    let r := cs.dropWhile (fun c => !(pyWS c))
    let r ← takeWS1 r
    let r ← match r with | '(' :: r' => some r' | _ => none
    let g2 := r.takeWhile (fun c => c ≠ ')')
    if g2 = [] then none
    else
      let r := r.dropWhile (fun c => c ≠ ')')
      let r ← match r with | ')' :: r' => some r' | _ => none
      let r ← takeWS1 r
      some ⟨String.mk g1, String.mk g2, pyStrip (String.mk r)⟩

/-- `getDVSPortSetLines` (switch.py:205-211): the stripped lines starting
with "DvsPortset-". -/
def getDVSPortSetLines (vSwitchInstanceListCmdOutput : String) : List String :=
  ((pySplitNL (pyStrip vSwitchInstanceListCmdOutput)).map pyStrip).filter
    (fun l => pyStartsWith l "DvsPortset-")

/-- The vSwitchInstances-building phase of `get_switches` (switch.py:44-66).
`none` models the early `return switches`: either a field guard fired on a
parsed row, or `parseDVSPortSetLine` returned `None` and the
`"vSwitchName" not in DVSPortRowDict` membership test on `None` raised
`TypeError`, caught by the surrounding `except` — both paths abandon the
whole function with the still-empty switch list. -/
def buildVSwitchInstances : List String → Option (List DvsInst)
  | [] => some []
  | l :: ls =>
    match parseDVSPortSetLine l with
    | none => none
    | some d =>
      if d.vSwitchName = "" ∨ d.friendlyName = "" ∨ d.switchUUID = "" then none
      else (buildVSwitchInstances ls).map (d :: ·)

/-- A constructed `Switch` object: key name/uuid/host plus its properties
(numeric property values are stored in decimal-string form). -/
structure SwitchObj where
  name : String
  uuid : String
  host : String
  props : List (String × String)
deriving DecidableEq, Repr

/-- `Object.get_property_values(key)`: the values recorded for `key`. -/
def propValues (o : SwitchObj) (key : String) : List String :=
  (o.props.filter (fun p => p.1 = key)).map (fun p => p.2)

/-- The master-switch scan of `get_switches` (switch.py:115-122):
`masterSwitch.get_property_values("switch_uuid")[0]` raises `IndexError`
when the property is absent (`.error`); otherwise the first master whose
value equals `u` is returned, `none` when no master matches (including the
empty master list, switch.py:123-125). -/
def findMasterByUUID : List SwitchObj → String → Except Unit (Option SwitchObj)
  | [], _ => .ok none
  | m :: ms, u =>
    match (propValues m "switch_uuid").head? with
    | none => .error ()
    | some v => if v = u then .ok (some m) else findMasterByUUID ms u

/-- The field guards of the ENS-switch loop (switch.py:71-100): each guard
`continue`s unless the key is present, non-`None` and non-empty (for the
`int` fields non-`None` suffices, an `int` never equals `''`). -/
def ensFields (e : EnsEntry) :
    Option (String × Nat × Nat × Nat × Nat × String) := do
  let n ← e.name
  if n = "" then none
  else
    let swID ← e.swID
    let maxPorts ← e.maxPorts
    let mtu ← e.mtu
    let numLcores ← e.numLcores
    let lcoreIDs ← e.lcoreIDs
    if lcoreIDs = "" then none
    else some (n, swID, maxPorts, mtu, numLcores, lcoreIDs)

/-- The inner `for vSwitchInstance in vSwitchInstances` scan
(switch.py:101-104): every matching instance overwrites `friendlyName` and
`switchUUID` (no `break`, so the last match wins); when nothing matches the
locals keep the value left by the previous loop iteration — or stay unbound
(`none`) when no iteration ever assigned them. -/
def resolveInst (insts : List DvsInst) (f u : Option String) (n : String) :
    Option String × Option String :=
  insts.foldl
    (fun p inst =>
      if inst.vSwitchName = n then (some inst.friendlyName, some inst.switchUUID)
      else p)
    (f, u)

/-- The `Switch` object built at switch.py:127-136 (numeric property values
in decimal-string form, as `aria` serializes them). -/
def mkSwitchObj (hostName ensSwitchName : String)
    (swID maxPorts mtu numLcores : Nat) (lcoreIDs fv uv : String) : SwitchObj :=
  { name := fv
    uuid := toString swID ++ "_" ++ uv ++ "_" ++ hostName
    host := hostName
    props := [("switch_id", toString swID), ("esxi_host", hostName),
              ("internal_name", ensSwitchName), ("switch_uuid", uv),
              ("max_ports", toString maxPorts), ("MTU", toString mtu),
              ("num_lcores", toString numLcores), ("lcore_ids", lcoreIDs)] }

/-- Loop state of `get_switches`: the two Python locals that survive across
iterations (`none` = still unbound, reading them raises `NameError`), the
collected switches and the objects passed to `host.add_parent`, in order. -/
structure GSState where
  friendlyName : Option String
  switchUUID : Option String
  switches : List SwitchObj
  hostParents : List SwitchObj
deriving DecidableEq, Repr

/-- One iteration of the ENS-switch loop of `get_switches`
(switch.py:69-147).  Guard failures and the caught exceptions (`NameError`
on an unbound local, `IndexError` in the master scan) skip the entry
(`continue` / the per-entry `except` handler); otherwise either the matching
master switch only gains a Host parent-edge, or a new `Switch` is built,
related to the host and appended. -/
def gsStep (hostName : String) (masters : List SwitchObj) (insts : List DvsInst)
    (st : GSState) (e : EnsEntry) : GSState :=
  match ensFields e with
  | none => st
  | some (ensSwitchName, swID, maxPorts, mtu, numLcores, lcoreIDs) =>
    let fu := resolveInst insts st.friendlyName st.switchUUID ensSwitchName
    let st := { st with friendlyName := fu.1, switchUUID := fu.2 }
    match st.friendlyName with
    | none => st
    | some fv =>
      if fv = "" then st
      else
        match st.switchUUID with
        | none => st
        | some uv =>
          if uv = "" then st
          else
            match findMasterByUUID masters uv with
            | .error () => st
            | .ok (some m) => { st with hostParents := st.hostParents ++ [m] }
            | .ok none =>
              let sw := mkSwitchObj hostName ensSwitchName swID maxPorts mtu
                numLcores lcoreIDs fv uv
              { st with switches := st.switches ++ [sw],
                        hostParents := st.hostParents ++ [sw] }

/-- Result of `get_switches`: the returned switch list and the objects the
host was related to. -/
structure GSResult where
  switches : List SwitchObj
  hostParents : List SwitchObj
deriving DecidableEq, Repr

/-- `get_switches` (switch.py:36-152). -/
def get_switches (hostName : String) (parsedENSSwitchList : List EnsEntry)
    (vSwitchInstanceListCmdOutput : String) (masterSwitchList : List SwitchObj) :
    GSResult :=
  if vSwitchInstanceListCmdOutput = "" then ⟨[], []⟩
  else
    match buildVSwitchInstances (getDVSPortSetLines vSwitchInstanceListCmdOutput) with
    | none => ⟨[], []⟩
    | some insts =>
      if parsedENSSwitchList = [] then ⟨[], []⟩
      else
        let st := parsedENSSwitchList.foldl (gsStep hostName masterSwitchList insts)
          ⟨none, none, [], []⟩
        ⟨st.switches, st.hostParents⟩

/-- A switch whose `switch_uuid` differs from the one stored on every master
switch. -/
def noMasterDup (masters : List SwitchObj) (sw : SwitchObj) : Prop :=
  ∀ m ∈ masters, ∃ uv v, (propValues sw "switch_uuid").head? = some uv ∧
    (propValues m "switch_uuid").head? = some v ∧ uv ≠ v

/-- When the master scan completes without a match, every master had a
readable `switch_uuid` different from `u`. -/
theorem findMasterByUUID_ok_none (ms : List SwitchObj) (u : String)
    (h : findMasterByUUID ms u = .ok none) :
    ∀ m ∈ ms, ∃ v, (propValues m "switch_uuid").head? = some v ∧ v ≠ u := by
  induction ms with
  | nil => intro m hm; cases hm
  | cons m₀ ms ih =>
    intro m hm
    cases hv : (propValues m₀ "switch_uuid").head? with
    | none => simp [findMasterByUUID, hv] at h
    | some v =>
      by_cases hvu : v = u
      · simp [findMasterByUUID, hv, hvu] at h
      · have hrec : findMasterByUUID ms u = .ok none := by
          simpa [findMasterByUUID, hv, hvu] using h
        rcases List.mem_cons.mp hm with hm | hm
        · subst hm; exact ⟨v, hv, hvu⟩
        · exact ih hrec m hm

/-- The freshly built switch stores exactly its resolved `switchUUID`. -/
theorem mkSwitchObj_uuid (hostName ensSwitchName : String)
    (swID maxPorts mtu numLcores : Nat) (lcoreIDs fv uv : String) :
    propValues (mkSwitchObj hostName ensSwitchName swID maxPorts mtu numLcores
      lcoreIDs fv uv) "switch_uuid" = [uv] := by
  simp [mkSwitchObj, propValues]

/-- A `gsStep` never adds a switch whose UUID is already on a master. -/
theorem gsStep_noMasterDup (hostName : String) (masters : List SwitchObj)
    (insts : List DvsInst) (st : GSState) (e : EnsEntry)
    (h : ∀ sw ∈ st.switches, noMasterDup masters sw) :
    ∀ sw ∈ (gsStep hostName masters insts st e).switches, noMasterDup masters sw := by
  cases hfe : ensFields e with
  | none => simpa [gsStep, hfe] using h
  | some t =>
    obtain ⟨n, swID, mp, mtu, nl, lc⟩ := t
    rcases hfu : resolveInst insts st.friendlyName st.switchUUID n with ⟨f', u'⟩
    cases f' with
    | none => simpa [gsStep, hfe, hfu] using h
    | some fv =>
      by_cases hfv : fv = ""
      · simpa [gsStep, hfe, hfu, hfv] using h
      · cases u' with
        | none => simpa [gsStep, hfe, hfu, hfv] using h
        | some uv =>
          by_cases huv : uv = ""
          · simpa [gsStep, hfe, hfu, hfv, huv] using h
          · cases hfm : findMasterByUUID masters uv with
            | error err =>
              cases err
              simpa [gsStep, hfe, hfu, hfv, huv, hfm] using h
            | ok o =>
              cases o with
              | some m => simpa [gsStep, hfe, hfu, hfv, huv, hfm] using h
              | none =>
                intro sw hsw
                have hmem : sw ∈ st.switches ∨
                    sw = mkSwitchObj hostName n swID mp mtu nl lc fv uv := by
                  simpa [gsStep, hfe, hfu, hfv, huv, hfm, List.mem_append]
                    using hsw
                rcases hmem with hmem | hmem
                · exact h sw hmem
                · subst hmem
                  intro m hm
                  obtain ⟨v, hv, hvu⟩ := findMasterByUUID_ok_none masters uv hfm m hm
                  exact ⟨uv, v, by simp [mkSwitchObj_uuid], hv, fun hEq => hvu (hEq ▸ rfl)⟩

/-- The invariant of `gsStep_noMasterDup`, folded over the whole entry list. -/
theorem gsFold_noMasterDup (hostName : String) (masters : List SwitchObj)
    (insts : List DvsInst) (es : List EnsEntry) (st : GSState)
    (h : ∀ sw ∈ st.switches, noMasterDup masters sw) :
    ∀ sw ∈ (es.foldl (gsStep hostName masters insts) st).switches,
      noMasterDup masters sw := by
  induction es generalizing st with
  | nil => simpa using h
  | cons e es ih =>
    intro sw hsw
    exact ih (gsStep hostName masters insts st e)
      (gsStep_noMasterDup hostName masters insts st e h) sw (by simpa using hsw)

/-- C1: a switch UUID already present on a master switch is never duplicated.
Part 1: every switch returned by `get_switches` carries a `switch_uuid`
different from the one stored on each master switch (no duplicate entity is
created or appended).  Part 2: an ENS-switch loop iteration that resolves to
a UUID matching a master switch only relates the host to that (first
matching) master — the switch list is unchanged and exactly one Host
parent-edge is added. -/
theorem C1_switch_dedup :
    (∀ hostName ens out masters sw m, sw ∈ (get_switches hostName ens out masters).switches →
      m ∈ masters →
      ∃ uv v, (propValues sw "switch_uuid").head? = some uv ∧
        (propValues m "switch_uuid").head? = some v ∧ uv ≠ v) ∧
    (∀ hostName masters insts st e n swID mp mtu nl lc fv uv m,
      ensFields e = some (n, swID, mp, mtu, nl, lc) →
      resolveInst insts st.friendlyName st.switchUUID n = (some fv, some uv) →
      fv ≠ "" → uv ≠ "" →
      findMasterByUUID masters uv = .ok (some m) →
      gsStep hostName masters insts st e =
        { friendlyName := some fv, switchUUID := some uv,
          switches := st.switches, hostParents := st.hostParents ++ [m] }) := by
  constructor
  · intro hostName ens out masters sw m hsw hm
    by_cases hout : out = ""
    · simp [get_switches, hout] at hsw
    · cases hbi : buildVSwitchInstances (getDVSPortSetLines out) with
      | none => simp [get_switches, hout, hbi] at hsw
      | some insts =>
        by_cases hens : ens = []
        · simp [get_switches, hout, hbi, hens] at hsw
        · have hsw' : sw ∈ (ens.foldl (gsStep hostName masters insts)
              ⟨none, none, [], []⟩).switches := by
            simpa [get_switches, hout, hbi, hens] using hsw
          exact gsFold_noMasterDup hostName masters insts ens ⟨none, none, [], []⟩
            (by intro sw h; cases h) sw hsw' m hm
  · intro hostName masters insts st e n swID mp mtu nl lc fv uv m hfe hfu hfv huv hfm
    simp [gsStep, hfe, hfu, hfv, huv, hfm]

/-- Concrete data instantiating the hypotheses of the theorems above. -/
def sampleInst : DvsInst := ⟨"DvsPortset-2", "sw2", "uuid-2"⟩

/-- An ENS-switch entry whose internal name matches `sampleInst`. -/
def sampleEntry : EnsEntry :=
  ⟨some "DvsPortset-2", some 7, some 512, some 10, some 10, some 1500, some 4,
   some "0 1"⟩

/-- An ENS-switch entry matched by no DvsPortset instance. -/
def staleEntry : EnsEntry :=
  ⟨some "DvsPortset-9", some 3, some 512, some 10, some 10, some 1500, some 4,
   some "0 1"⟩

/-- A master switch already carrying `switch_uuid` "uuid-2". -/
def sampleMaster : SwitchObj := ⟨"m", "mu", "h0", [("switch_uuid", "uuid-2")]⟩

/-- Witness for C1: on concrete data the matching master only gains the Host
parent-edge and no switch is appended. -/
theorem C1_switch_dedup_witness :
    gsStep "h1" [sampleMaster] [sampleInst] ⟨none, none, [], []⟩ sampleEntry =
      { friendlyName := some "sw2", switchUUID := some "uuid-2",
        switches := [], hostParents := [sampleMaster] } :=
  C1_switch_dedup.2 "h1" [sampleMaster] [sampleInst] ⟨none, none, [], []⟩
    sampleEntry "DvsPortset-2" 7 512 1500 4 "0 1" "sw2" "uuid-2" sampleMaster
    rfl rfl (by decide) (by decide) rfl

/-- A DvsPortset line failing the header regex poisons the whole
vSwitchInstances-building phase. -/
theorem buildVSwitchInstances_none (ls : List String) (l : String)
    (hmem : l ∈ ls) (hbad : parseDVSPortSetLine l = none) :
    buildVSwitchInstances ls = none := by
  induction ls with
  | nil => cases hmem
  | cons l₀ ls ih =>
    rcases List.mem_cons.mp hmem with h | h
    · subst h; simp [buildVSwitchInstances, hbad]
    · cases hp : parseDVSPortSetLine l₀ with
      | none => simp [buildVSwitchInstances, hp]
      | some d =>
        by_cases hg : d.vSwitchName = "" ∨ d.friendlyName = "" ∨ d.switchUUID = ""
        · simp [buildVSwitchInstances, hp, hg]
        · simp [buildVSwitchInstances, hp, hg, ih h]

/-- C9 counterexample: the claim "a malformed DvsPortset header row is
skipped and processing continues with the remaining rows" is false.  With a
malformed row "DvsPortset-1" in front of a well-formed one, `get_switches`
collects nothing, while the same call without the malformed row collects one
switch. -/
theorem C9_counterexample :
    get_switches "h1" [sampleEntry] "DvsPortset-1\nDvsPortset-2 (sw2) uuid-2" [] =
        ⟨[], []⟩ ∧
      (get_switches "h1" [sampleEntry] "DvsPortset-2 (sw2) uuid-2" []).switches.length
        = 1 :=
  ⟨rfl, rfl⟩

/-- C9 (amended): a DvsPortset header row that fails the header regex is not
skipped: `get_switches` returns immediately with the switches collected so
far — necessarily the empty list, because the header scan precedes all
switch construction — so that host's remaining rows and ENS switches are
abandoned. -/
theorem C9_malformed_dvs_row_aborts (hostName : String) (ens : List EnsEntry)
    (out : String) (masters : List SwitchObj)
    (h : ∃ l ∈ getDVSPortSetLines out, parseDVSPortSetLine l = none) :
    get_switches hostName ens out masters = ⟨[], []⟩ := by
  obtain ⟨l, hmem, hbad⟩ := h
  by_cases hout : out = ""
  · simp [get_switches, hout]
  · simp [get_switches, hout, buildVSwitchInstances_none (getDVSPortSetLines out) l hmem hbad]

/-- Witness for the amended C9 at the concrete malformed output. -/
theorem C9_malformed_dvs_row_aborts_witness :
    get_switches "h1" [sampleEntry] "DvsPortset-1\nDvsPortset-2 (sw2) uuid-2" [] =
      ⟨[], []⟩ :=
  C9_malformed_dvs_row_aborts "h1" [sampleEntry]
    "DvsPortset-1\nDvsPortset-2 (sw2) uuid-2" []
    ⟨"DvsPortset-1", by decide, by decide⟩

/-- C10: resolution of the friendly name and switch UUID of an ENS switch in
`get_switches`.  (a) the last matching DvsPortset instance wins; (b) when no
instance matches, the two locals keep whatever the previous loop iteration
left in them; (c) so the Switch entity of an unmatched ENS switch is built
with the *preceding matched switch's* friendly name and UUID; (d) when no
earlier iteration ever matched, reading the unbound local raises `NameError`,
the per-switch handler catches it, and the entry is skipped with the state
unchanged (the fold goes on with the remaining entries). -/
theorem C10_stale_locals :
    (∀ (insts : List DvsInst) (i : DvsInst) (f u : Option String) (n : String),
      resolveInst (insts ++ [i]) f u n =
        if i.vSwitchName = n then (some i.friendlyName, some i.switchUUID)
        else resolveInst insts f u n) ∧
    (∀ (insts : List DvsInst) (f u : Option String) (n : String),
      (∀ i ∈ insts, i.vSwitchName ≠ n) → resolveInst insts f u n = (f, u)) ∧
    (∀ hostName masters insts st e n swID mp mtu nl lc fv uv,
      ensFields e = some (n, swID, mp, mtu, nl, lc) →
      (∀ i ∈ insts, i.vSwitchName ≠ n) →
      st.friendlyName = some fv → st.switchUUID = some uv →
      fv ≠ "" → uv ≠ "" →
      findMasterByUUID masters uv = .ok none →
      gsStep hostName masters insts st e =
        { st with
          switches := st.switches ++ [mkSwitchObj hostName n swID mp mtu nl lc fv uv],
          hostParents := st.hostParents ++ [mkSwitchObj hostName n swID mp mtu nl lc fv uv] }) ∧
    (∀ hostName masters insts st e n swID mp mtu nl lc,
      ensFields e = some (n, swID, mp, mtu, nl, lc) →
      (∀ i ∈ insts, i.vSwitchName ≠ n) →
      st.friendlyName = none →
      gsStep hostName masters insts st e = st) := by
  have hlast : ∀ (insts : List DvsInst) (i : DvsInst) (f u : Option String) (n : String),
      resolveInst (insts ++ [i]) f u n =
        if i.vSwitchName = n then (some i.friendlyName, some i.switchUUID)
        else resolveInst insts f u n := by
    intro insts i f u n
    simp [resolveInst, List.foldl_append]
  have hnone : ∀ (insts : List DvsInst) (f u : Option String) (n : String),
      (∀ i ∈ insts, i.vSwitchName ≠ n) → resolveInst insts f u n = (f, u) := by
    intro insts
    induction insts with
    | nil => intro f u n _; rfl
    | cons i insts ih =>
      intro f u n h
      have hi : i.vSwitchName ≠ n := h i (List.mem_cons_self i insts)
      have := ih f u n (fun j hj => h j (List.mem_cons_of_mem i hj))
      simpa [resolveInst, hi] using this
  refine ⟨hlast, hnone, ?_, ?_⟩
  · intro hostName masters insts st e n swID mp mtu nl lc fv uv hfe hnomatch hf hu hfv huv hfm
    have hres : resolveInst insts st.friendlyName st.switchUUID n =
        (some fv, some uv) := by rw [hnone insts _ _ n hnomatch, hf, hu]
    simp [gsStep, hfe, hres, hfv, huv, hfm]
    cases st
    simp_all
  · intro hostName masters insts st e n swID mp mtu nl lc hfe hnomatch hf
    have hres : resolveInst insts st.friendlyName st.switchUUID n =
        (none, st.switchUUID) := by rw [hnone insts _ _ n hnomatch, hf]
    simp [gsStep, hfe, hres]
    cases st
    simp_all

/-- Witness for C10 on concrete data: after `sampleEntry` matches
`sampleInst`, the unmatched `staleEntry` is built with `sampleEntry`'s
friendly name "sw2" and UUID "uuid-2"; before any match, the unmatched entry
is skipped unchanged. -/
theorem C10_stale_locals_witness :
    (resolveInst [sampleInst] none none "DvsPortset-2" =
        (some "sw2", some "uuid-2")) ∧
    (resolveInst [sampleInst] (some "sw2") (some "uuid-2") "DvsPortset-9" =
        (some "sw2", some "uuid-2")) ∧
    (gsStep "h1" [] [sampleInst]
        ⟨some "sw2", some "uuid-2", [], []⟩ staleEntry =
      ⟨some "sw2", some "uuid-2",
        [mkSwitchObj "h1" "DvsPortset-9" 3 512 1500 4 "0 1" "sw2" "uuid-2"],
        [mkSwitchObj "h1" "DvsPortset-9" 3 512 1500 4 "0 1" "sw2" "uuid-2"]⟩) ∧
    (gsStep "h1" [] [sampleInst] ⟨none, none, [], []⟩ staleEntry =
        ⟨none, none, [], []⟩) := by
  refine ⟨?_, ?_, ?_, ?_⟩
  · have := C10_stale_locals.1 [] sampleInst none none "DvsPortset-2"
    simpa [sampleInst] using this
  · exact C10_stale_locals.2.1 [sampleInst] (some "sw2") (some "uuid-2")
      "DvsPortset-9" (by decide)
  · exact C10_stale_locals.2.2.1 "h1" [] [sampleInst]
      ⟨some "sw2", some "uuid-2", [], []⟩ staleEntry "DvsPortset-9" 3 512 1500 4
      "0 1" "sw2" "uuid-2" rfl (by decide) rfl rfl (by decide) (by decide) rfl
  · exact C10_stale_locals.2.2.2 "h1" [] [sampleInst] ⟨none, none, [], []⟩
      staleEntry "DvsPortset-9" 3 512 1500 4 "0 1" rfl (by decide) rfl

/-! ## Association-list model of Python `dict` -/

/-- `d[k]` lookup (`None`-free: `none` = key absent). -/
def dictGet {α : Type} (d : List (String × α)) (k : String) : Option α :=
  (d.find? (fun p => p.1 = k)).map (fun p => p.2)

/-- `d[k] = v` assignment (keys are unique in a Python dict). -/
def dictSet {α : Type} (d : List (String × α)) (k : String) (v : α) :
    List (String × α) :=
  if (d.find? (fun p => p.1 = k)).isSome
  then d.map (fun p => if p.1 = k then (k, v) else p)
  else d ++ [(k, v)]

theorem dictGet_cons {α : Type} (p : String × α) (d : List (String × α))
    (k : String) :
    dictGet (p :: d) k = if p.1 = k then some p.2 else dictGet d k := by
  by_cases h : p.1 = k <;> simp [dictGet, List.find?_cons, h]

theorem dictGet_dictSet_ne {α : Type} (d : List (String × α)) (k k' : String)
    (v : α) (h : k' ≠ k) : dictGet (dictSet d k v) k' = dictGet d k' := by
  unfold dictSet
  by_cases hk : (d.find? (fun p => p.1 = k)).isSome
  · rw [if_pos hk]; clear hk
    induction d with
    | nil => rfl
    | cons p d ih =>
      rw [List.map_cons, dictGet_cons, dictGet_cons, ih]
      by_cases hpk : p.1 = k
      · simp [hpk, Ne.symm h]
      · simp [hpk]
  · rw [if_neg hk]; clear hk
    induction d with
    | nil => simp [dictGet_cons, dictGet, Ne.symm h]
    | cons p d ih =>
      rw [List.cons_append, dictGet_cons, dictGet_cons, ih]

theorem dictGet_dictSet_self {α : Type} (d : List (String × α)) (k : String)
    (v : α) : dictGet (dictSet d k v) k = some v := by
  unfold dictSet
  by_cases hk : (d.find? (fun p => p.1 = k)).isSome
  · rw [if_pos hk]
    induction d with
    | nil => simp at hk
    | cons p d ih =>
      rw [List.map_cons, dictGet_cons]
      by_cases hpk : p.1 = k
      · simp [hpk]
      · have hk' : (d.find? (fun p => p.1 = k)).isSome := by
          simpa [List.find?_cons, hpk] using hk
        simpa [hpk] using ih hk'
  · rw [if_neg hk]
    induction d with
    | nil => simp [dictGet_cons, dictGet]
    | cons p d ih =>
      by_cases hpk : p.1 = k
      · exact absurd (by simp [List.find?_cons, hpk] : ((p :: d).find?
          (fun q => q.1 = k)).isSome) hk
      · have hk' : ¬ (d.find? (fun q => q.1 = k)).isSome = true := by
          simpa [List.find?_cons, hpk] using hk
        rw [List.cons_append, dictGet_cons]
        simpa [hpk] using ih hk'

/-! ## Nodes (`node.py`) -/

/-- A constructed `Node` object: key name/uuid, properties, metrics and the
references handed to `add_parent` (host name, port-group object, VDAN). -/
structure NodeObj where
  name : String
  uuid : String
  props : List (String × String)
  metrics : List (String × Nat)
  parents : List String
deriving DecidableEq, Repr

/-- One entry of a `vlansDict` port-group list: the owning switch UUID, the
`DistPortGroupObject` (`none` = falsy) and the related-node counter. -/
structure DistPortGroup where
  switchUUID : String
  obj : Option String
  currentNumRelatedNodes : Nat
deriving DecidableEq, Repr

/-- `node.add_parent(p)`. -/
def nodeAddParent (n : NodeObj) (p : String) : NodeObj :=
  { n with parents := n.parents ++ [p] }

/-- The scan inside `add_node_vlan_relationship` (node.py:196-201): link the
node under the first port-group whose `switchUUID` matches and whose object
is truthy, bumping that entry's counter; `none` when no entry matches. -/
def linkFirstMatch (node : NodeObj) (hostSwitchUUID : String) :
    List DistPortGroup → Option (NodeObj × List DistPortGroup)
  | [] => none
  | pg :: pgs =>
    if pg.switchUUID = hostSwitchUUID ∧ pg.obj.isSome then
      some ({ node with parents := node.parents ++ [pg.obj.getD ""] },
            { pg with currentNumRelatedNodes := pg.currentNumRelatedNodes + 1 } :: pgs)
    else
      (linkFirstMatch node hostSwitchUUID pgs).map (fun r => (r.1, pg :: r.2))

/-- `add_node_vlan_relationship` (node.py:190-202).  The
`if nodeVLANID.isnumeric(): nodeVLANID = str(nodeVLANID)` line is the
identity on a `str` and is dropped.  An absent VLAN key or an empty (falsy)
port-group list adds nothing and returns `False`. -/
def add_node_vlan_relationship (node : NodeObj) (nodeVLANID hostSwitchUUID : String)
    (vlansDict : List (String × List DistPortGroup)) :
    NodeObj × List (String × List DistPortGroup) × Bool :=
  match dictGet vlansDict nodeVLANID with
  | none => (node, vlansDict, false)
  | some pgs =>
    if pgs = [] then (node, vlansDict, false)
    else
      match linkFirstMatch node hostSwitchUUID pgs with
      | none => (node, vlansDict, false)
      | some r => (r.1, dictSet vlansDict nodeVLANID r.2, true)

/-- A collected Vdan object as seen by `add_node_vdan_relationship`. -/
structure VdanObjRef where
  name : String
  props : List (String × String)
deriving DecidableEq, Repr

/-- `add_node_vdan_relationship` (node.py:204-212).
`vdanObj.get_property('mac_address')[0].value` raises `IndexError`
(modelled `.error`) when the property is absent; the node gains the first
VDAN whose value equals `nodeVDANMac` as a parent. -/
def add_node_vdan_relationship (node : NodeObj) (nodeVDANMac : String) :
    List VdanObjRef → Except Unit (NodeObj × Bool)
  | [] => .ok (node, false)
  | v :: vs =>
    match ((v.props.filter (fun p => p.1 = "mac_address")).map (fun p => p.2)).head? with
    | none => .error ()
    | some mac =>
      if mac = nodeVDANMac then
        .ok ({ node with parents := node.parents ++ [v.name] }, true)
      else add_node_vdan_relationship node nodeVDANMac vs

/-- `columns[i]`: `IndexError` (`.error`) when out of range. -/
def colGet (cols : List String) (i : Nat) : Except Unit String :=
  match cols.get? i with
  | some v => .ok v
  | none => .error ()

/-- The `lnode` construction of `get_nodes` (node.py:117-155): properties
from columns 2-6 (blank column ⇒ empty-string property), metrics from
columns 9, 11, 13 (blank or non-numeric column ⇒ metric value 0), then
`lnode.add_parent(host)`.  Returns the node together with the `nodeVLANID`
and `nodeVDANMac` locals used for the relationship calls. -/
def buildLNode (hostName mac : String) (cols : List String) :
    Except Unit (NodeObj × String × String) :=
  match colGet cols 2 with
  | .error () => .error ()
  | .ok c2 =>
  match colGet cols 3 with
  | .error () => .error ()
  | .ok c3 =>
  match colGet cols 4 with
  | .error () => .error ()
  | .ok c4 =>
  match colGet cols 5 with
  | .error () => .error ()
  | .ok c5 =>
  match colGet cols 6 with
  | .error () => .error ()
  | .ok c6 =>
  match colGet cols 9 with
  | .error () => .error ()
  | .ok c9 =>
  match colGet cols 11 with
  | .error () => .error ()
  | .ok c11 =>
  match colGet cols 13 with
  | .error () => .error ()
  | .ok c13 =>
    let nodeVLANID := if c2 ≠ "" then pyStrip c2 else ""
    let nodeVDANMac := if c6 ≠ "" ∧ pyStrip c6 ≠ "" then pyStrip c6 else ""
    let lnode : NodeObj :=
      { name := mac, uuid := mac
        props := [("mac", mac),
                  ("vlan_id", nodeVLANID),
                  ("type", if c3 ≠ "" ∧ pyStrip c3 ≠ "" then pyStrip c3 else ""),
                  ("redbox_mac", if c4 ≠ "" ∧ pyStrip c4 ≠ "" then pyStrip c4 else ""),
                  ("current_lcore", if c5 ≠ "" then pyStrip c5 else ""),
                  ("vdan_mac", nodeVDANMac)]
        metrics := [("sup_seq_a", if c9 ≠ "" ∧ pyIsNumeric c9 then pyInt c9 else 0),
                    ("sup_seq_b", if c11 ≠ "" ∧ pyIsNumeric c11 then pyInt c11 else 0),
                    ("node_age", if c13 ≠ "" ∧ pyIsNumeric c13 then pyInt c13 else 0)]
        parents := [hostName] }
    .ok (lnode, nodeVLANID, nodeVDANMac)

/-- Mutable state threaded through the node-collection loops. -/
structure NodeState where
  nodesDict : List (String × NodeObj)
  masterNodeDict : List (String × NodeObj)
  vlansDict : List (String × List DistPortGroup)
  nVlanRels : Nat
  nVdanRels : Nat
deriving DecidableEq, Repr

/-- One `while` iteration over a node-list row (node.py:108-173).
`.error st` models an exception escaping the row (an `IndexError` on a short
row, or inside the VDAN scan): it is caught by the per-result handler at
node.py:176, so the state mutated so far survives but the rest of that
result's rows are skipped.  A Python `Object` is always truthy, so the
`masterNodeDict[mac]` truthiness test reduces to key membership. -/
def nodeRowStep (hostName hostSwitchUUID : String) (hostVDANS : List VdanObjRef)
    (st : NodeState) (row : String) : Except NodeState NodeState :=
  match pySplitWS row with
  | [] => .error st
  | c0 :: rest =>
    if c0 ≠ "" ∧ pyIsNumeric c0 then
      match colGet (c0 :: rest) 1 with
      | .error () => .error st
      | .ok c1 =>
        if c1 ≠ "" ∧ pyStrip c1 ≠ "" then
          let mac := pyStrip c1
          match dictGet st.masterNodeDict mac with
          | some mnode =>
            .ok { st with masterNodeDict :=
                    dictSet st.masterNodeDict mac (nodeAddParent mnode hostName) }
          | none =>
            match buildLNode hostName mac (c0 :: rest) with
            | .error () => .error st
            | .ok (lnode, nodeVLANID, nodeVDANMac) =>
              let r :=
                if nodeVLANID ≠ "" then
                  add_node_vlan_relationship lnode nodeVLANID hostSwitchUUID st.vlansDict
                else (lnode, st.vlansDict, false)
              let st1 : NodeState :=
                { st with vlansDict := r.2.1,
                          nVlanRels := st.nVlanRels + (if r.2.2 then 1 else 0) }
              if nodeVDANMac ≠ "" then
                match add_node_vdan_relationship r.1 nodeVDANMac hostVDANS with
                | .error () => .error st1
                | .ok q =>
                  .ok { st1 with nodesDict := dictSet st1.nodesDict mac q.1,
                                 nVdanRels := st1.nVdanRels + (if q.2 then 1 else 0) }
              else
                .ok { st1 with nodesDict := dictSet st1.nodesDict mac r.1 }
        else .ok st
    else .ok st

/-- The row loop of one result: the first escaping exception stops the loop,
keeping the state mutated so far (the `except` of node.py:176). -/
def nodeRowsFold (hostName hostSwitchUUID : String) (hostVDANS : List VdanObjRef) :
    NodeState → List String → NodeState
  | st, [] => st
  | st, r :: rs =>
    match nodeRowStep hostName hostSwitchUUID hostVDANS st r with
    | .ok st' => nodeRowsFold hostName hostSwitchUUID hostVDANS st' rs
    | .error st' => st'

/-- One `hostSwitchList` entry of `masterHostToSwitchDict[hostName]`. -/
structure HostSwitch where
  switchID : Nat
  friendlyName : String
  switchUUID : String
deriving DecidableEq, Repr

/-- Per-switch result processing of `get_nodes` (node.py:90-178): resolve
the host switch UUID, falling back to "UNKNOWN" (node.py:101-103), skip an
empty output, else scan the rows after the two header lines. -/
def processNodeResult (hostName : String) (hostSwitchList : List HostSwitch)
    (hostVDANS : List VdanObjRef) (st : NodeState) (idRes : Nat × String) :
    NodeState :=
  let hostSwitchUUID :=
    match hostSwitchList.find? (fun hs => hs.switchID = idRes.1) with
    | some hs => hs.switchUUID
    | none => "UNKNOWN"
  if idRes.2 = "" then st
  else nodeRowsFold hostName hostSwitchUUID hostVDANS st ((pySplitNL idRes.2).drop 2)

/-- The parsing phase of `get_nodes` (node.py:89-185), given the per-switch
command outputs (the guard at node.py:89 makes `results` and
`ensSwitchIDList` equal-length, hence the zip).  Returns the final state:
the fresh `nodesDict` plus the mutated master/VLAN dictionaries. -/
def get_nodes_core (hostName : String) (ensSwitchIDList : List Nat)
    (results : List String) (hostSwitchList : List HostSwitch)
    (hostVDANS : List VdanObjRef) (masterNodeDict : List (String × NodeObj))
    (vlansDict : List (String × List DistPortGroup)) : NodeState :=
  (ensSwitchIDList.zip results).foldl
    (processNodeResult hostName hostSwitchList hostVDANS)
    ⟨[], masterNodeDict, vlansDict, 0, 0⟩

/-- The state an exception-or-success row step leaves behind (either way the
mutations made so far survive, only control flow differs). -/
def stepState : Except NodeState NodeState → NodeState
  | .ok st => st
  | .error st => st

/-- Invariant tying a node-collection state to the initial master dict: the
master dict keeps exactly its original keys, and every key of the fresh
`nodesDict` is absent from the original master dict. -/
def nodeInv (m0 : List (String × NodeObj)) (st : NodeState) : Prop :=
  (∀ k, dictGet st.masterNodeDict k = none ↔ dictGet m0 k = none) ∧
  (∀ k, dictGet st.nodesDict k ≠ none → dictGet m0 k = none)

/-- A row step preserves `nodeInv`, whether it finishes or escapes. -/
theorem nodeRowStep_inv (m0 : List (String × NodeObj)) (hostName uuid : String)
    (vdans : List VdanObjRef) (st : NodeState) (row : String)
    (h : nodeInv m0 st) :
    nodeInv m0 (stepState (nodeRowStep hostName uuid vdans st row)) := by
  cases hcols : pySplitWS row with
  | nil => simpa [nodeRowStep, hcols, stepState] using h
  | cons c0 rest =>
    by_cases h0 : c0 ≠ "" ∧ pyIsNumeric c0
    · cases hc1 : colGet (c0 :: rest) 1 with
      | error e => cases e; simpa [nodeRowStep, hcols, h0, hc1, stepState] using h
      | ok c1 =>
        by_cases h1 : c1 ≠ "" ∧ pyStrip c1 ≠ ""
        · cases hm : dictGet st.masterNodeDict (pyStrip c1) with
          | some mnode =>
            have hgoal : nodeInv m0
                { st with masterNodeDict :=
                    dictSet st.masterNodeDict (pyStrip c1) (nodeAddParent mnode hostName) } := by
              constructor
              · intro k
                by_cases hk : k = pyStrip c1
                · subst hk
                  rw [dictGet_dictSet_self]
                  have hiff := h.1 (pyStrip c1)
                  simp only [hm] at hiff
                  simp [← hiff]
                · rw [dictGet_dictSet_ne _ _ _ _ hk]
                  exact h.1 k
              · exact h.2
            simpa [nodeRowStep, hcols, h0, hc1, h1, hm, stepState] using hgoal
          | none =>
            cases hb : buildLNode hostName (pyStrip c1) (c0 :: rest) with
            | error e =>
              cases e
              simpa [nodeRowStep, hcols, h0, hc1, h1, hm, hb, stepState] using h
            | ok t =>
              obtain ⟨lnode, vlanid, vdanmac⟩ := t
              have hmacm0 : dictGet m0 (pyStrip c1) = none := (h.1 (pyStrip c1)).mp hm
              have hinsert : ∀ (node : NodeObj) vl n1 n2, nodeInv m0
                  ⟨dictSet st.nodesDict (pyStrip c1) node, st.masterNodeDict, vl, n1, n2⟩ := by
                intro node vl n1 n2
                constructor
                · exact h.1
                · intro k hkne
                  by_cases hk : k = pyStrip c1
                  · subst hk; exact hmacm0
                  · rw [dictGet_dictSet_ne _ _ _ _ hk] at hkne
                    exact h.2 k hkne
              have hkeep : ∀ vl n1 n2, nodeInv m0
                  ⟨st.nodesDict, st.masterNodeDict, vl, n1, n2⟩ := by
                intro vl n1 n2; exact ⟨h.1, h.2⟩
              by_cases h6 : vdanmac ≠ ""
              · cases hv : add_node_vdan_relationship
                    (if vlanid = "" then (lnode, st.vlansDict, false)
                    else add_node_vlan_relationship lnode vlanid uuid st.vlansDict).1
                    vdanmac vdans with
                | error e =>
                  cases e
                  simpa [nodeRowStep, hcols, h0, hc1, h1, hm, hb, h6, hv, stepState]
                    using hkeep _ _ _
                | ok q =>
                  simpa [nodeRowStep, hcols, h0, hc1, h1, hm, hb, h6, hv, stepState]
                    using hinsert _ _ _ _
              · simpa [nodeRowStep, hcols, h0, hc1, h1, hm, hb, h6, stepState]
                  using hinsert _ _ _ _
        · simpa [nodeRowStep, hcols, h0, hc1, h1, stepState] using h
    · simpa [nodeRowStep, hcols, h0, stepState] using h

/-- The row loop preserves `nodeInv`. -/
theorem nodeRowsFold_inv (m0 : List (String × NodeObj)) (hostName uuid : String)
    (vdans : List VdanObjRef) (rows : List String) (st : NodeState)
    (h : nodeInv m0 st) :
    nodeInv m0 (nodeRowsFold hostName uuid vdans st rows) := by
  induction rows generalizing st with
  | nil => simpa [nodeRowsFold] using h
  | cons r rs ih =>
    have hstep := nodeRowStep_inv m0 hostName uuid vdans st r h
    cases he : nodeRowStep hostName uuid vdans st r with
    | ok st' =>
      rw [he] at hstep
      rw [nodeRowsFold, he]
      exact ih st' hstep
    | error st' =>
      rw [he] at hstep
      rw [nodeRowsFold, he]
      exact hstep

/-- Per-result processing preserves `nodeInv`. -/
theorem processNodeResult_inv (m0 : List (String × NodeObj)) (hostName : String)
    (hsl : List HostSwitch) (vdans : List VdanObjRef) (st : NodeState)
    (idRes : Nat × String) (h : nodeInv m0 st) :
    nodeInv m0 (processNodeResult hostName hsl vdans st idRes) := by
  unfold processNodeResult
  by_cases hr : idRes.2 = ""
  · simpa [hr] using h
  · simpa [hr] using nodeRowsFold_inv m0 hostName _ vdans _ st h

/-- Folding per-result processing over any pair list preserves `nodeInv`. -/
theorem nodeFold_inv (m0 : List (String × NodeObj)) (hostName : String)
    (hsl : List HostSwitch) (vdans : List VdanObjRef)
    (ps : List (Nat × String)) (st : NodeState) (h : nodeInv m0 st) :
    nodeInv m0 (ps.foldl (processNodeResult hostName hsl vdans) st) := by
  induction ps generalizing st with
  | nil => simpa using h
  | cons p ps ih =>
    rw [List.foldl_cons]
    exact ih _ (processNodeResult_inv m0 hostName hsl vdans st p h)

/-- C2: node dedup against the master MAC-keyed dictionary.  Part 1: no MAC
already present in the master dict ever appears in the fresh `nodesDict`
returned by the parsing phase of `get_nodes` — a second Node entity is never
built for it.  Part 2: an accepted row whose MAC is a master-dict key only
appends a Host parent-edge to the existing master Node; nothing else in the
state changes. -/
theorem C2_node_dedup :
    (∀ hostName ids results hsl vdans master vlans mac,
      dictGet master mac ≠ none →
      dictGet (get_nodes_core hostName ids results hsl vdans master
        vlans).nodesDict mac = none) ∧
    (∀ hostName uuid vdans st row c0 rest c1 mnode,
      pySplitWS row = c0 :: rest →
      (c0 ≠ "" ∧ pyIsNumeric c0) →
      colGet (c0 :: rest) 1 = .ok c1 →
      (c1 ≠ "" ∧ pyStrip c1 ≠ "") →
      dictGet st.masterNodeDict (pyStrip c1) = some mnode →
      nodeRowStep hostName uuid vdans st row =
        .ok { st with masterNodeDict :=
                dictSet st.masterNodeDict (pyStrip c1) (nodeAddParent mnode hostName) }) := by
  constructor
  · intro hostName ids results hsl vdans master vlans mac hmac
    have hinit : nodeInv master (⟨[], master, vlans, 0, 0⟩ : NodeState) := by
      constructor
      · intro k; exact Iff.rfl
      · intro k hk; simp [dictGet] at hk
    have hfold := nodeFold_inv master hostName hsl vdans (ids.zip results)
      ⟨[], master, vlans, 0, 0⟩ hinit
    by_contra hne
    exact hmac (hfold.2 mac hne)
  · intro hostName uuid vdans st row c0 rest c1 mnode hcols h0 hc1 h1 hm
    simp [nodeRowStep, hcols, h0, hc1, h1, hm]

/-- A master Node observed earlier from host "h0". -/
def sampleMasterNode : NodeObj := ⟨"m", "m", [("mac", "m")], [], ["h0"]⟩

/-- A node-list row (already split into columns): valid index, MAC "m", all
fields present and the trailing age column blank. -/
def sampleNodeRow : String := "1 m 100 t r 0 v x y 9 z 11 w "

/-- Witness for C2 on concrete data: with MAC "m" already in the master
dict, the returned `nodesDict` has no entry for "m", and the row step only
appends the Host parent-edge to the master Node. -/
theorem C2_node_dedup_witness :
    dictGet (get_nodes_core "h1" [0] ["hdr\nhdr2\n" ++ sampleNodeRow] [] []
        [("m", sampleMasterNode)] []).nodesDict "m" = none ∧
    nodeRowStep "h1" "UNKNOWN" [] ⟨[], [("m", sampleMasterNode)], [], 0, 0⟩
        sampleNodeRow =
      .ok ⟨[], [("m", nodeAddParent sampleMasterNode "h1")], [], 0, 0⟩ := by
  constructor
  · exact C2_node_dedup.1 "h1" [0] ["hdr\nhdr2\n" ++ sampleNodeRow] [] []
      [("m", sampleMasterNode)] [] "m" (by decide)
  · exact (C2_node_dedup.2 "h1" "UNKNOWN" []
      ⟨[], [("m", sampleMasterNode)], [], 0, 0⟩ sampleNodeRow "1"
      ["m", "100", "t", "r", "0", "v", "x", "y", "9", "z", "11", "w", ""] "m"
      sampleMasterNode rfl (by decide) rfl (by decide) rfl).trans rfl

/-- C5 counterexample: the claim "a blank age column yields no metric on the
Node rather than the metric with value 0" is false: parsing a node-list row
whose trailing age column (columns[13]) is blank produces a Node carrying
the metric `node_age` with value 0 (and likewise blank columns elsewhere
produce empty-string properties, not omissions). -/
theorem C5_counterexample :
    (dictGet (get_nodes_core "h1" [0] ["hdr\nhdr2\n1 m 100 t r 0 v x y 9 z 11 w "]
        [] [] [] []).nodesDict "m").map NodeObj.metrics =
      some [("sup_seq_a", 9), ("sup_seq_b", 11), ("node_age", 0)] := by
  rfl

/-- C5 (amended): in an accepted node-list row, blank optional columns are
defaulted, not omitted: a blank supervision-sequence or age column puts the
corresponding metric on the Node with value 0, and a blank VLAN / type /
redbox / core / VDAN-MAC column puts the corresponding property on the Node
with the empty-string value. -/
theorem C5_blank_columns_defaulted (hostName mac : String) (cols : List String)
    (lnode : NodeObj) (vlanid vdanmac : String)
    (hok : buildLNode hostName mac cols = .ok (lnode, vlanid, vdanmac)) :
    (cols[13]? = some "" → ("node_age", 0) ∈ lnode.metrics) ∧
    (cols[9]? = some "" → ("sup_seq_a", 0) ∈ lnode.metrics) ∧
    (cols[11]? = some "" → ("sup_seq_b", 0) ∈ lnode.metrics) ∧
    (cols[2]? = some "" → ("vlan_id", "") ∈ lnode.props) ∧
    (cols[3]? = some "" → ("type", "") ∈ lnode.props) ∧
    (cols[4]? = some "" → ("redbox_mac", "") ∈ lnode.props) ∧
    (cols[5]? = some "" → ("current_lcore", "") ∈ lnode.props) ∧
    (cols[6]? = some "" → ("vdan_mac", "") ∈ lnode.props) := by
  cases hg2 : cols[2]? with
  | none => simp [buildLNode, colGet, hg2] at hok
  | some c2 =>
  cases hg3 : cols[3]? with
  | none => simp [buildLNode, colGet, hg2, hg3] at hok
  | some c3 =>
  cases hg4 : cols[4]? with
  | none => simp [buildLNode, colGet, hg2, hg3, hg4] at hok
  | some c4 =>
  cases hg5 : cols[5]? with
  | none => simp [buildLNode, colGet, hg2, hg3, hg4, hg5] at hok
  | some c5 =>
  cases hg6 : cols[6]? with
  | none => simp [buildLNode, colGet, hg2, hg3, hg4, hg5, hg6] at hok
  | some c6 =>
  cases hg9 : cols[9]? with
  | none => simp [buildLNode, colGet, hg2, hg3, hg4, hg5, hg6, hg9] at hok
  | some c9 =>
  cases hg11 : cols[11]? with
  | none => simp [buildLNode, colGet, hg2, hg3, hg4, hg5, hg6, hg9, hg11] at hok
  | some c11 =>
  cases hg13 : cols[13]? with
  | none => simp [buildLNode, colGet, hg2, hg3, hg4, hg5, hg6, hg9, hg11, hg13] at hok
  | some c13 =>
    rw [buildLNode] at hok
    simp only [colGet, List.get?_eq_getElem?, hg2, hg3, hg4, hg5, hg6, hg9, hg11,
      hg13] at hok
    rw [Except.ok.injEq, Prod.mk.injEq, Prod.mk.injEq] at hok
    obtain ⟨hl, hv, hd⟩ := hok
    subst hl
    refine ⟨?_, ?_, ?_, ?_, ?_, ?_, ?_, ?_⟩
    · intro hb; injection hb with hb; subst hb; simp
    · intro hb; injection hb with hb; subst hb; simp
    · intro hb; injection hb with hb; subst hb; simp
    · intro hb; injection hb with hb; subst hb; simp
    · intro hb; injection hb with hb; subst hb; simp
    · intro hb; injection hb with hb; subst hb; simp
    · intro hb; injection hb with hb; subst hb; simp
    · intro hb; injection hb with hb; subst hb; simp

/-- The columns of `sampleNodeRow` and the Node built from them. -/
def sampleCols : List String :=
  ["1", "m", "100", "t", "r", "0", "v", "x", "y", "9", "z", "11", "w", ""]

/-- The Node built from `sampleCols` (trailing blank age column ⇒
`node_age` 0). -/
def sampleBuiltNode : NodeObj :=
  ⟨"m", "m",
   [("mac", "m"), ("vlan_id", "100"), ("type", "t"), ("redbox_mac", "r"),
    ("current_lcore", "0"), ("vdan_mac", "v")],
   [("sup_seq_a", 9), ("sup_seq_b", 11), ("node_age", 0)], ["h1"]⟩

/-- Witness for the amended C5 at the concrete blank-age row. -/
theorem C5_blank_columns_defaulted_witness :
    ("node_age", 0) ∈ sampleBuiltNode.metrics :=
  (C5_blank_columns_defaulted "h1" "m" sampleCols sampleBuiltNode "100" "v" rfl).1 rfl

/-! ## Port → VLAN join (`port.py`, `add_port_relationships` fragment) -/

/-- A constructed `Port` object (name/uuid/host key, properties, parents). -/
structure PortObj where
  name : String
  uuid : String
  host : String
  props : List (String × String)
  parents : List String
deriving DecidableEq, Repr

/-- `port.get_property('switch_uuid')[0].value` (`none` = the `IndexError`
case of an absent property). -/
def portSwitchUUIDOf (port : PortObj) : Option String :=
  ((port.props.filter (fun p => p.1 = "switch_uuid")).map (fun p => p.2)).head?

/-- Body of the `for distPortGroup in distPortGroupsList` loop of
`add_port_relationships` (port.py:207-211): every matching truthy port-group
gains the port as a child (there is no `break`). -/
def portVlanStep (portSwitchUUID : String) (acc : PortObj × Nat)
    (pg : DistPortGroup) : PortObj × Nat :=
  if pg.switchUUID = portSwitchUUID ∧ pg.obj.isSome then
    ({ acc.1 with parents := acc.1.parents ++ [pg.obj.getD ""] }, acc.2 + 1)
  else acc

/-- The port→VLAN joining fragment of `add_port_relationships`
(port.py:206-212): read the port's switch UUID, add a parent edge under
every port-group of the row's VLAN whose switch UUID matches, then record
the stripped VLAN id property. -/
def addPortVlanEdges (port : PortObj) (vid : String)
    (distPortGroupsList : List DistPortGroup) : Except Unit (PortObj × Nat) :=
  match portSwitchUUIDOf port with
  | none => .error ()
  | some portSwitchUUID =>
    let r := distPortGroupsList.foldl (portVlanStep portSwitchUUID) (port, 0)
    .ok ({ r.1 with props := r.1.props ++ [("vlan_id", pyStrip vid)] }, r.2)

/-- A successful `linkFirstMatch` links exactly one matching truthy
port-group. -/
theorem linkFirstMatch_parents (node : NodeObj) (u : String)
    (pgs : List DistPortGroup) (r : NodeObj × List DistPortGroup)
    (h : linkFirstMatch node u pgs = some r) :
    ∃ pg ∈ pgs, pg.switchUUID = u ∧ pg.obj.isSome ∧
      r.1.parents = node.parents ++ [pg.obj.getD ""] := by
  induction pgs generalizing r with
  | nil => simp [linkFirstMatch] at h
  | cons pg pgs ih =>
    by_cases hc : pg.switchUUID = u ∧ pg.obj.isSome
    · rw [linkFirstMatch, if_pos hc] at h
      injection h with h
      exact ⟨pg, List.mem_cons_self pg pgs, hc.1, hc.2, by rw [← h]⟩
    · rw [linkFirstMatch, if_neg hc] at h
      cases hrec : linkFirstMatch node u pgs with
      | none => rw [hrec] at h; simp at h
      | some r' =>
        rw [hrec] at h
        injection h with h
        obtain ⟨pg', hmem, h1, h2, h3⟩ := ih r' hrec
        exact ⟨pg', List.mem_cons_of_mem pg hmem, h1, h2, by rw [← h]; exact h3⟩

/-- Parents accumulated by the port→VLAN loop all come from matching truthy
port-groups. -/
theorem portFold_parents (S : String) (pgs : List DistPortGroup)
    (acc : PortObj × Nat) (p : String)
    (hp : p ∈ (pgs.foldl (portVlanStep S) acc).1.parents) :
    p ∈ acc.1.parents ∨ ∃ pg ∈ pgs, pg.switchUUID = S ∧ pg.obj = some p := by
  induction pgs generalizing acc with
  | nil => exact Or.inl (by simpa using hp)
  | cons pg pgs ih =>
    rw [List.foldl_cons] at hp
    rcases ih (portVlanStep S acc pg) hp with hin | ⟨pg', hmem, h1, h2⟩
    · by_cases hc : pg.switchUUID = S ∧ pg.obj.isSome
      · rw [portVlanStep, if_pos hc] at hin
        rcases List.mem_append.mp hin with hin | hin
        · exact Or.inl hin
        · refine Or.inr ⟨pg, List.mem_cons_self pg pgs, hc.1, ?_⟩
          obtain ⟨v, hv⟩ := Option.isSome_iff_exists.mp hc.2
          simp only [List.mem_singleton] at hin
          rw [hv, hin]
          simp [hv]
      · rw [portVlanStep, if_neg hc] at hin
        exact Or.inl hin
    · exact Or.inr ⟨pg', List.mem_cons_of_mem pg hmem, h1, h2⟩

/-- C3: VLAN→port-group joins are switch-scoped.  Any parent edge that
`add_node_vlan_relationship` adds to a Node, and any parent edge the
port→VLAN fragment of `add_port_relationships` adds to a Port, targets a
port-group entry whose `switchUUID` equals the entity's owning switch UUID;
an entry of the same VLAN with a different switch UUID is never linked. -/
theorem C3_vlan_join_switch_scoped :
    (∀ node nodeVLANID hostSwitchUUID vlansDict p,
      p ∈ (add_node_vlan_relationship node nodeVLANID hostSwitchUUID
            vlansDict).1.parents →
      p ∈ node.parents ∨
        ∃ pgs pg, dictGet vlansDict nodeVLANID = some pgs ∧ pg ∈ pgs ∧
          pg.switchUUID = hostSwitchUUID ∧ pg.obj = some p) ∧
    (∀ port vid pgs S port' n p,
      portSwitchUUIDOf port = some S →
      addPortVlanEdges port vid pgs = .ok (port', n) →
      p ∈ port'.parents →
      p ∈ port.parents ∨ ∃ pg ∈ pgs, pg.switchUUID = S ∧ pg.obj = some p) := by
  constructor
  · intro node nodeVLANID hostSwitchUUID vlansDict p hp
    cases hd : dictGet vlansDict nodeVLANID with
    | none =>
      simp only [add_node_vlan_relationship, hd] at hp
      exact Or.inl hp
    | some pgs =>
      by_cases hpgs : pgs = []
      · simp only [add_node_vlan_relationship, hd, if_pos hpgs] at hp
        exact Or.inl hp
      · cases hl : linkFirstMatch node hostSwitchUUID pgs with
        | none =>
          simp only [add_node_vlan_relationship, hd, if_neg hpgs, hl] at hp
          exact Or.inl hp
        | some r =>
          simp only [add_node_vlan_relationship, hd, if_neg hpgs, hl] at hp
          obtain ⟨pg, hmem, h1, h2, h3⟩ := linkFirstMatch_parents node _ pgs r hl
          rw [h3] at hp
          rcases List.mem_append.mp hp with hin | hin
          · exact Or.inl hin
          · refine Or.inr ⟨pgs, pg, rfl, hmem, h1, ?_⟩
            obtain ⟨v, hv⟩ := Option.isSome_iff_exists.mp h2
            simp only [List.mem_singleton] at hin
            rw [hv, hin]
            simp [hv]
  · intro port vid pgs S port' n p hS hok hp
    rw [addPortVlanEdges, hS] at hok
    injection hok with hok
    have h1 : (pgs.foldl (portVlanStep S) (port, 0)).1.parents = port'.parents :=
      congrArg (fun q => PortObj.parents q.1) hok
    rw [← h1] at hp
    exact portFold_parents S pgs (port, 0) p hp

/-- Port-groups of one VLAN on two different switches. -/
def samplePGother : DistPortGroup := ⟨"uuid-X", some "pgB", 0⟩

/-- The matching port-group entry. -/
def samplePGmatch : DistPortGroup := ⟨"uuid-2", some "pgA", 0⟩

/-- A port on switch "uuid-2". -/
def samplePort : PortObj := ⟨"7", "7_h1", "h1", [("switch_uuid", "uuid-2")], []⟩

/-- Witness for C3 on concrete data: with two port-groups for the VLAN on
different switches, the edge added to the node/port targets the matching
one. -/
theorem C3_vlan_join_switch_scoped_witness :
    ("pgA" ∈ ([] : List String) ∨
      ∃ pgs pg, dictGet [("100", [samplePGother, samplePGmatch])] "100" = some pgs ∧
        pg ∈ pgs ∧ pg.switchUUID = "uuid-2" ∧ pg.obj = some "pgA") ∧
    ("pgA" ∈ samplePort.parents ∨
      ∃ pg ∈ [samplePGother, samplePGmatch], pg.switchUUID = "uuid-2" ∧
        pg.obj = some "pgA") := by
  constructor
  · exact C3_vlan_join_switch_scoped.1 ⟨"n", "n", [], [], []⟩ "100" "uuid-2"
      [("100", [samplePGother, samplePGmatch])] "pgA" (by decide)
  · exact C3_vlan_join_switch_scoped.2 samplePort "204 "
      [samplePGother, samplePGmatch] "uuid-2"
      ⟨"7", "7_h1", "h1", [("switch_uuid", "uuid-2"), ("vlan_id", "204")], ["pgA"]⟩
      1 "pgA" rfl rfl (by decide)

/-! ## Lans (`lan.py`, `get_lans` per-result processing) -/

/-- One `LanA`/`LanB` section of a parsed PRP-config output.  A field key is
present in the section dict iff its regex matched, and a `(\S+)` match is
never empty. -/
structure LanSection where
  name : String
  uplink1 : Option String
  uplink2 : Option String
  policy : Option String
  status : Option String
deriving DecidableEq, Repr

/-- The parts of the `parse_lan_output` dict that `get_lans` consumes: the
optional switch id (an `int`, so never `''`) and the `Lan*`-named sections
in dict order. -/
structure ParsedLanOutput where
  switchID : Option Nat
  lans : List LanSection
deriving DecidableEq, Repr

/-- A constructed `Lan` object: key name/uuid/switchID, properties and the
parent switch reference. -/
structure LanObj where
  name : String
  uuid : String
  switchID : String
  props : List (String × String)
  parents : List String
deriving DecidableEq, Repr

/-- `with_property(key, v)` guarded by 「key in dict and v is not None and v」
(lan.py:148-163): contributes the property only for a present, non-empty
value. -/
def optProp (key : String) (v : Option String) : List (String × String) :=
  match v with
  | none => []
  | some s => if s = "" then [] else [(key, s)]

/-- The `Lan` object built at lan.py:145-166.  `masterSwitchUUID` is the
matched master switch's stored `switch_uuid`, which the scan guarantees
equals the host switch's resolved UUID. -/
def buildLanObj (hostName : String) (switchID : Nat) (switchIDStr : String)
    (masterSwitchName masterSwitchUUID : String) (item : LanSection) : LanObj :=
  { name := item.name
    uuid := item.name ++ "_switch_" ++ masterSwitchUUID
    switchID := switchIDStr
    props := [("esxi_host", hostName), ("switch_id", toString switchID)]
      ++ optProp "status" item.status
      ++ optProp "uplink1" item.uplink1
      ++ optProp "uplink2" item.uplink2
      ++ optProp "policy" item.policy
      ++ [("switch_name", masterSwitchName)]
    parents := [masterSwitchName] }

/-- Processing of one parsed PRP-config output inside `get_lans`
(lan.py:94-174): scan the `Lan*` keys; resolve the switch id against the
host switch list — an unresolved id `continue`s, DROPPING the whole record
(lan.py:114-116), as does an id matching no master switch (lan.py:128-130)
or an `IndexError` while reading a master's `switch_uuid` (caught at
lan.py:172); sections without a `status` key are skipped (lan.py:133), as
are sections whose uuid already appears in the master LAN list. -/
def processLanResult (hostName : String) (hostSwitchList : List HostSwitch)
    (masterSwitchList : List SwitchObj) (masterLANList : List LanObj)
    (parsed : ParsedLanOutput) : List LanObj :=
  let lanList := parsed.lans.filter (fun s => pyStartsWith s.name "Lan")
  if lanList = [] then []
  else
    match parsed.switchID with
    | none => []
    | some switchID =>
      match hostSwitchList.find? (fun hs => hs.switchID = switchID) with
      | none => []
      | some hs =>
        match findMasterByUUID masterSwitchList hs.switchUUID with
        | .error () => []
        | .ok none => []
        | .ok (some m) =>
          let switchIDStr := toString switchID ++ "_" ++ m.name
          lanList.foldl
            (fun acc item =>
              match item.status with
              | none => acc
              | some _ =>
                let uuid := item.name ++ "_switch_" ++ hs.switchUUID
                if masterLANList.any (fun l => l.uuid = uuid) then acc
                else acc ++ [buildLanObj hostName switchID switchIDStr m.name
                      hs.switchUUID item])
            []

/-- A parsed PRP-config record with a resolvable-looking switch id and one
LanA section with a status. -/
def sampleLanParsed : ParsedLanOutput :=
  ⟨some 5, [⟨"LanA", none, none, none, some "up"⟩]⟩

/-- A master switch for UUID "u2". -/
def sampleLanMaster : SwitchObj := ⟨"sw", "swu", "h0", [("switch_uuid", "u2")]⟩

/-- C6 counterexample: a Lan record whose switch ID resolves to no host
switch is NOT emitted with an "UNKNOWN" linkage — it is dropped entirely
(empty result), even though the very same record is emitted once the switch
resolves. -/
theorem C6_counterexample :
    processLanResult "h1" [] [] [] sampleLanParsed = [] ∧
      (processLanResult "h1" [⟨5, "sw", "u2"⟩] [sampleLanMaster] []
        sampleLanParsed).length = 1 :=
  ⟨rfl, rfl⟩

/-- The per-section fold of `processLanResult` emits nothing when every
section lacks a status. -/
theorem lanFold_no_status (hostName : String) (switchID : Nat)
    (switchIDStr mName uuid2 : String) (masterLANList : List LanObj)
    (items : List LanSection) (acc : List LanObj)
    (h : ∀ i ∈ items, i.status = none) :
    items.foldl
      (fun acc item =>
        match item.status with
        | none => acc
        | some _ =>
          let uuid := item.name ++ "_switch_" ++ uuid2
          if masterLANList.any (fun l => l.uuid = uuid) then acc
          else acc ++ [buildLanObj hostName switchID switchIDStr mName uuid2 item])
      acc = acc := by
  induction items generalizing acc with
  | nil => rfl
  | cons i items ih =>
    rw [List.foldl_cons]
    have hi : i.status = none := h i (List.mem_cons_self i items)
    rw [hi]
    exact ih acc (fun j hj => h j (List.mem_cons_of_mem i hj))

/-- C6 (amended): a parsed PRP-config (Lan) record whose switch ID cannot be
resolved is dropped entirely — `get_lans` emits no Lan entity for it, with
no "UNKNOWN" fallback (that fallback exists only for the Node/Port/Vdan
switch linkage).  This holds both when the id matches no host switch and
when the resolved UUID matches no master switch; and Lan sections carrying
no status field are likewise dropped. -/
theorem C6_unresolved_lan_dropped :
    (∀ hostName hsl masters masterLANs parsed sid,
      parsed.switchID = some sid →
      hsl.find? (fun hs => HostSwitch.switchID hs = sid) = none →
      processLanResult hostName hsl masters masterLANs parsed = []) ∧
    (∀ hostName hsl masters masterLANs parsed sid hs,
      parsed.switchID = some sid →
      hsl.find? (fun h => HostSwitch.switchID h = sid) = some hs →
      findMasterByUUID masters hs.switchUUID = .ok none →
      processLanResult hostName hsl masters masterLANs parsed = []) ∧
    (∀ hostName hsl masters masterLANs parsed,
      (∀ i ∈ parsed.lans, LanSection.status i = none) →
      processLanResult hostName hsl masters masterLANs parsed = []) := by
  refine ⟨?_, ?_, ?_⟩
  · intro hostName hsl masters masterLANs parsed sid hsid hfind
    by_cases hl : parsed.lans.filter (fun s => pyStartsWith s.name "Lan") = []
    · simp [processLanResult, hl]
    · simp [processLanResult, hl, hsid, hfind]
  · intro hostName hsl masters masterLANs parsed sid hs hsid hfind hmaster
    by_cases hl : parsed.lans.filter (fun s => pyStartsWith s.name "Lan") = []
    · simp [processLanResult, hl]
    · simp [processLanResult, hl, hsid, hfind, hmaster]
  · intro hostName hsl masters masterLANs parsed hstat
    by_cases hl : parsed.lans.filter (fun s => pyStartsWith s.name "Lan") = []
    · simp [processLanResult, hl]
    · cases hsid : parsed.switchID with
      | none => simp [processLanResult, hl, hsid]
      | some sid =>
        cases hfind : hsl.find? (fun h => HostSwitch.switchID h = sid) with
        | none => simp [processLanResult, hl, hsid, hfind]
        | some hs =>
          cases hmaster : findMasterByUUID masters hs.switchUUID with
          | error e => cases e; simp [processLanResult, hl, hsid, hfind, hmaster]
          | ok o =>
            cases o with
            | none => simp [processLanResult, hl, hsid, hfind, hmaster]
            | some m =>
              simp only [processLanResult, hl, hsid, hfind, hmaster, if_neg]
              rw [lanFold_no_status]
              · simp [hl]
              · intro i hi
                exact hstat i (List.mem_of_mem_filter hi)

/-- Witness for the amended C6 at the concrete unresolvable record. -/
theorem C6_unresolved_lan_dropped_witness :
    processLanResult "h1" [] [] [] sampleLanParsed = [] :=
  C6_unresolved_lan_dropped.1 "h1" [] [] [] sampleLanParsed 5 rfl rfl

end NsxIvs
